import Mathlib

/-!
Shallow embedding of the rotate-and-update webhook service
(src/index.js, most feature-complete revision: Cloudflare R2 upload,
product metafield update, optional order line-item property update).

Every outbound call of the workflow (sleep, image fetch, sharp rotate,
R2 PutObject, Shopify GraphQL mutation) is recorded as an event in a
trace; the responses of the external collaborators are supplied by a
World oracle, so the control flow of the JavaScript code is reproduced
exactly while the network stays abstract.
-/

/-- JavaScript-like values, as far as the webhook payload and the
GraphQL responses need them.  Truthiness below follows JavaScript. -/
inductive JsVal where
  | undefined : JsVal
  | null : JsVal
  | str : String → JsVal
  | num : Int → JsVal
  | bool : Bool → JsVal
  deriving DecidableEq

/-- JavaScript truthiness of a value, used by the guard
`if (!image_url || ...)` and by `rotation || 90` in the source. -/
def JsVal.truthy : JsVal → Bool
  | JsVal.undefined => false
  | JsVal.null => false
  | JsVal.str s => !s.isEmpty
  | JsVal.num n => n != 0
  | JsVal.bool b => b

/-- JavaScript string conversion, used by template literals such as
`gid://shopify/Product/X` and by the String(...) casts in the source. -/
def JsVal.jsToString : JsVal → String
  | JsVal.undefined => "undefined"
  | JsVal.null => "null"
  | JsVal.str s => s
  | JsVal.num n => toString n
  | JsVal.bool b => if b then "true" else "false"

/-- The JSON body of POST /rotate-and-update, destructured by
processRotateAndUpdateJob in the source. -/
structure Payload where
  image_url : JsVal
  product_id : JsVal
  metafield_namespace : JsVal
  metafield_key : JsVal
  rotation : JsVal
  order_id : JsVal
  line_item_id : JsVal
  deriving DecidableEq

/-- Shopify environment variables read at startup. -/
structure ShopifyEnv where
  storeDomain : JsVal
  accessToken : JsVal
  deriving DecidableEq

/-- R2 environment variables read at startup. -/
structure R2Env where
  accessKeyId : JsVal
  secretAccessKey : JsVal
  bucketName : JsVal
  endpoint : JsVal
  publicBaseUrl : JsVal
  deriving DecidableEq

/-- Raw image bytes (a Buffer in the source). -/
def Buffer : Type := List Nat

/-- Outcome of one iteration of the download-and-rotate retry loop:
the fetch throws or returns a non-ok status, the sharp rotate call
throws, or the iteration produces a rotated buffer. -/
inductive AttemptOutcome where
  | fetchFail : AttemptOutcome
  | rotateFail : AttemptOutcome
  | ok : Buffer → AttemptOutcome

/-- One edge of calculatedOrder.lineItems in the orderEditBegin
response: the calculated line item id and originalLineItem.id. -/
structure CalcEdge where
  nodeId : String
  origId : JsVal

/-- The calculatedOrder object of the orderEditBegin response. -/
structure CalcOrder where
  id : String
  edges : List CalcEdge

/-- Oracle for everything outside the process: the clock, the image
host, the R2 endpoint and the Shopify Admin GraphQL endpoint. -/
structure World where
  now : Nat
  attemptOutcome : Nat → AttemptOutcome
  r2SendOk : Bool
  metafieldHttpOk : Bool
  metafieldUserErrors : List String
  beginHttpOk : Bool
  beginUserErrors : List String
  beginCalcOrder : Option CalcOrder
  setPropsHttpOk : Bool
  setPropsUserErrors : List String
  commitHttpOk : Bool
  commitUserErrors : List String

/-- One outbound effect of the workflow, in program order. -/
inductive Event where
  | sleep : Nat → Event
  | fetch : String → Event
  | rotate : JsVal → Event
  | r2Put : String → String → Event
  | gqlMetafieldsSet : String → JsVal → JsVal → String → String → Event
  | gqlOrderEditBegin : String → Event
  | gqlOrderEditSetProps : String → String → String → String → Event
  | gqlOrderEditCommit : String → Bool → Event
  deriving DecidableEq

def Event.isSleep : Event → Bool
  | Event.sleep _ => true
  | _ => false

def Event.isFetch : Event → Bool
  | Event.fetch _ => true
  | _ => false

def Event.isRotate : Event → Bool
  | Event.rotate _ => true
  | _ => false

def Event.isR2Put : Event → Bool
  | Event.r2Put _ _ => true
  | _ => false

def Event.isMetafieldsSet : Event → Bool
  | Event.gqlMetafieldsSet _ _ _ _ _ => true
  | _ => false

def Event.isOrderEdit : Event → Bool
  | Event.gqlOrderEditBegin _ => true
  | Event.gqlOrderEditSetProps _ _ _ _ => true
  | Event.gqlOrderEditCommit _ _ => true
  | _ => false

/-- Number of events of a trace satisfying a classifier. -/
def countEvents (f : Event → Bool) (l : List Event) : Nat :=
  (l.filter f).length

/-- The guard of processRotateAndUpdateJob:
`if (!image_url || !product_id || !metafield_namespace || !metafield_key)`. -/
def payloadValid (p : Payload) : Bool :=
  p.image_url.truthy && p.product_id.truthy &&
    p.metafield_namespace.truthy && p.metafield_key.truthy

/-- The guard `if (!SHOPIFY_STORE_DOMAIN || !SHOPIFY_ACCESS_TOKEN)`. -/
def shopifyOk (env : ShopifyEnv) : Bool :=
  env.storeDomain.truthy && env.accessToken.truthy

/-- The guard of uploadToR2 over the five R2 environment variables. -/
def r2Complete (r2 : R2Env) : Bool :=
  r2.accessKeyId.truthy && r2.secretAccessKey.truthy &&
    r2.bucketName.truthy && r2.endpoint.truthy && r2.publicBaseUrl.truthy

/-- The expression `rotation || 90` passed to sharp rotate. -/
def effectiveRotation (p : Payload) : JsVal :=
  if p.rotation.truthy then p.rotation else JsVal.num 90

/-- One call of the shopifyGraphQL helper: it throws before the network
call when the Shopify environment is missing, performs the call (one
event), and throws after it when the HTTP status is not ok. -/
def shopifyGraphQL (env : ShopifyEnv) (httpOk : Bool) (e : Event) :
    List Event × Except Unit Unit :=
  if shopifyOk env then
    if httpOk then ([e], Except.ok ()) else ([e], Except.error ())
  else ([], Except.error ())

/-- Whether the string s ends with the string sfx, as a computation on
the character lists (the JavaScript String.prototype.endsWith). -/
def strEndsWith (s sfx : String) : Bool :=
  sfx.data == s.data.drop (s.data.length - sfx.data.length)

/-- The string s without its last character. -/
def strDropLast (s : String) : String :=
  String.mk s.data.dropLast

/-- The string expression of uploadToR2 replacing a trailing slash:
`R2_PUBLIC_BASE_URL.replace(/\/$/, "")` removes one trailing slash. -/
def dropTrailingSlash (s : String) : String :=
  if strEndsWith s "/" then strDropLast s else s

/-- uploadToR2 from the source: checks the five R2 environment
variables (throwing before any call when one is missing), issues the
PutObject call, and on success builds the public URL from the base URL,
the bucket segment (appended only when the base does not already end
with it) and the object key. -/
def uploadToR2 (r2 : R2Env) (world : World) (buffer : Buffer)
    (filename : String) : List Event × Except Unit String :=
  let _ := buffer
  if r2Complete r2 then
    let key := "rotated/" ++ filename
    let e := Event.r2Put r2.bucketName.jsToString key
    if world.r2SendOk then
      let base := dropTrailingSlash r2.publicBaseUrl.jsToString
      let bucketSegment := "/" ++ r2.bucketName.jsToString
      let baseWithBucket :=
        if strEndsWith base bucketSegment then base
        else base ++ bucketSegment
      ([e], Except.ok (baseWithBucket ++ "/" ++ key))
    else ([e], Except.error ())
  else ([], Except.error ())

/-- setProductMetafield from the source: one metafieldsSet mutation with
ownerId built from the product id, type single_line_text_field; a
non-empty extracted user-error list makes it throw. -/
def setProductMetafield (env : ShopifyEnv) (world : World)
    (productId ns key : JsVal) (value : String) :
    List Event × Except Unit Unit :=
  let ownerId := "gid://shopify/Product/" ++ productId.jsToString
  let c := shopifyGraphQL env world.metafieldHttpOk
    (Event.gqlMetafieldsSet ownerId ns key "single_line_text_field" value)
  match c.2 with
  | Except.error _ => (c.1, Except.error ())
  | Except.ok _ =>
    if world.metafieldUserErrors.isEmpty then (c.1, Except.ok ())
    else (c.1, Except.error ())

/-- The loop of updateOrderLineItemProperty locating the calculated
line item whose originalLineItem.id strictly equals the original line
item GID, skipping edges with a falsy originalLineItem.id. -/
def findCalculatedLineItem (edges : List CalcEdge) (target : String) :
    Option String :=
  match edges with
  | [] => none
  | e :: rest =>
    if e.origId.truthy then
      if e.origId = JsVal.str target then some e.nodeId
      else findCalculatedLineItem rest target
    else findCalculatedLineItem rest target

/-- updateOrderLineItemProperty from the source: orderEditBegin, the
calculated line item lookup, orderEditSetLineItemProperties, and
orderEditCommit with notifyCustomer false; a user-error or a failed
lookup at any step throws and skips the remaining steps. -/
def updateOrderLineItemProperty (env : ShopifyEnv) (world : World)
    (orderId lineItemId propName newValue : String) :
    List Event × Except Unit Unit :=
  let orderGid := "gid://shopify/Order/" ++ orderId
  let origGid := "gid://shopify/LineItem/" ++ lineItemId
  let c1 := shopifyGraphQL env world.beginHttpOk
    (Event.gqlOrderEditBegin orderGid)
  match c1.2 with
  | Except.error _ => (c1.1, Except.error ())
  | Except.ok _ =>
    if world.beginUserErrors.isEmpty then
      match world.beginCalcOrder with
      | none => (c1.1, Except.error ())
      | some co =>
        match findCalculatedLineItem co.edges origGid with
        | none => (c1.1, Except.error ())
        | some calcLineItemId =>
          let c2 := shopifyGraphQL env world.setPropsHttpOk
            (Event.gqlOrderEditSetProps co.id calcLineItemId propName newValue)
          match c2.2 with
          | Except.error _ => (c1.1 ++ c2.1, Except.error ())
          | Except.ok _ =>
            if world.setPropsUserErrors.isEmpty then
              let c3 := shopifyGraphQL env world.commitHttpOk
                (Event.gqlOrderEditCommit co.id false)
              match c3.2 with
              | Except.error _ => (c1.1 ++ c2.1 ++ c3.1, Except.error ())
              | Except.ok _ =>
                if world.commitUserErrors.isEmpty then
                  (c1.1 ++ c2.1 ++ c3.1, Except.ok ())
                else (c1.1 ++ c2.1 ++ c3.1, Except.error ())
            else (c1.1 ++ c2.1, Except.error ())
    else (c1.1, Except.error ())

/-- The download-and-rotate retry loop of processRotateAndUpdateJob:
attempt numbers count up from the first argument, the second argument
is the number of attempts left; a failed attempt is followed by a
1-minute sleep unless it was the last one. -/
def fetchRotateLoop (world : World) (url : String) (angle : JsVal) :
    Nat → Nat → List Event × Option Buffer
  | _, 0 => ([], none)
  | attempt, r + 1 =>
    match world.attemptOutcome attempt with
    | AttemptOutcome.ok buf =>
      ([Event.fetch url, Event.rotate angle], some buf)
    | AttemptOutcome.fetchFail =>
      if r = 0 then ([Event.fetch url], none)
      else
        let rest := fetchRotateLoop world url angle (attempt + 1) r
        (Event.fetch url :: Event.sleep 60000 :: rest.1, rest.2)
    | AttemptOutcome.rotateFail =>
      if r = 0 then ([Event.fetch url, Event.rotate angle], none)
      else
        let rest := fetchRotateLoop world url angle (attempt + 1) r
        (Event.fetch url :: Event.rotate angle :: Event.sleep 60000 :: rest.1,
          rest.2)

/-- The filename template of the source:
rotated dash product id dash Date.now() dot png. -/
def mkFilename (p : Payload) (world : World) : String :=
  "rotated-" ++ p.product_id.jsToString ++ "-" ++ toString world.now ++ ".png"

/-- processRotateAndUpdateJob from the source: validate the payload and
the Shopify environment, sleep 3 minutes, run the retry loop with at
most 4 attempts, upload to R2, set the product metafield, and when both
order_id and line_item_id are truthy update the order line-item
property; every thrown error is caught by the outer try and ends the
job.  The returned trace lists the outbound calls performed. -/
def processRotateAndUpdateJob (env : ShopifyEnv) (r2 : R2Env)
    (world : World) (p : Payload) : List Event :=
  if payloadValid p then
    if shopifyOk env then
      let loopOut := fetchRotateLoop world p.image_url.jsToString
        (effectiveRotation p) 1 4
      let pre := Event.sleep 180000 :: loopOut.1
      match loopOut.2 with
      | none => pre
      | some buf =>
        let up := uploadToR2 r2 world buf (mkFilename p world)
        match up.2 with
        | Except.error _ => pre ++ up.1
        | Except.ok finalImageUrl =>
          let mf := setProductMetafield env world p.product_id
            p.metafield_namespace p.metafield_key finalImageUrl
          match mf.2 with
          | Except.error _ => pre ++ up.1 ++ mf.1
          | Except.ok _ =>
            if p.order_id.truthy && p.line_item_id.truthy then
              pre ++ up.1 ++ mf.1 ++
                (updateOrderLineItemProperty env world
                  p.order_id.jsToString p.line_item_id.jsToString
                  "_tib_design_link_1" finalImageUrl).1
            else pre ++ up.1 ++ mf.1
    else []
  else []

/-- An HTTP response of the express app. -/
structure HttpResponse where
  status : Nat
  body : String
  deriving DecidableEq

/-- The POST /rotate-and-update handler: it launches the job without
awaiting it and immediately answers 200 accepted; the trace of the
detached job is returned alongside. -/
def postRotateAndUpdate (env : ShopifyEnv) (r2 : R2Env) (world : World)
    (body : Payload) : HttpResponse × List Event :=
  ({ status := 200, body := "accepted" },
    processRotateAndUpdateJob env r2 world body)

/-- Modelled from the spec: the image rotation primitive (the sharp
library call) is an external collaborator whose code is not under src;
the spec fixes its semantics as a 90 degree clockwise rotation of the
pixel grid, here on an image given as a function of row and column. -/
def rotate90 {P : Type} {m n : Nat} (img : Fin m → Fin n → P) :
    Fin n → Fin m → P :=
  fun i j => img (Fin.rev j) i

/-! ## Helper lemmas about traces -/

theorem countEvents_append (f : Event → Bool) (a b : List Event) :
    countEvents f (a ++ b) = countEvents f a + countEvents f b := by
  simp [countEvents, List.filter_append]

theorem filter_nil_of_all_false (f : Event → Bool) (l : List Event)
    (h : ∀ e ∈ l, f e = false) : l.filter f = [] := by
  rw [List.filter_eq_nil_iff]
  intro a ha
  simp [h a ha]

theorem countEvents_eq_zero (f : Event → Bool) (l : List Event)
    (h : ∀ e ∈ l, f e = false) : countEvents f l = 0 := by
  simp [countEvents, filter_nil_of_all_false f l h]

theorem shopifyGraphQL_mem (env : ShopifyEnv) (b : Bool) (ev e : Event)
    (h : e ∈ (shopifyGraphQL env b ev).1) : e = ev := by
  unfold shopifyGraphQL at h
  cases hs : shopifyOk env <;> cases hb : b <;> simp_all

theorem setProductMetafield_mem (env : ShopifyEnv) (world : World)
    (pid ns k : JsVal) (v : String) (e : Event)
    (h : e ∈ (setProductMetafield env world pid ns k v).1) :
    Event.isMetafieldsSet e = true := by
  unfold setProductMetafield shopifyGraphQL at h
  cases hs : shopifyOk env <;> cases hh : world.metafieldHttpOk <;>
    cases hu : world.metafieldUserErrors.isEmpty <;>
      simp_all [Event.isMetafieldsSet]

theorem uploadToR2_mem (r2 : R2Env) (world : World) (buf : Buffer)
    (fn : String) (e : Event)
    (h : e ∈ (uploadToR2 r2 world buf fn).1) : Event.isR2Put e = true := by
  unfold uploadToR2 at h
  cases hc : r2Complete r2 <;> cases hs : world.r2SendOk <;>
    simp_all [Event.isR2Put]

theorem forall_mem_append_closed {P : Event → Prop} {A B : List Event}
    (hA : ∀ x ∈ A, P x) (hB : ∀ x ∈ B, P x) : ∀ x ∈ A ++ B, P x := by
  intro x hx
  rcases List.mem_append.mp hx with hh | hh
  · exact hA x hh
  · exact hB x hh

theorem updateOrderLineItemProperty_mem (env : ShopifyEnv) (world : World)
    (oid lid pn nv : String) (e : Event)
    (h : e ∈ (updateOrderLineItemProperty env world oid lid pn nv).1) :
    Event.isOrderEdit e = true := by
  have g1 : ∀ (b : Bool) (s : String),
      ∀ x ∈ (shopifyGraphQL env b (Event.gqlOrderEditBegin s)).1,
        Event.isOrderEdit x = true := by
    intro b s x hx
    have hx2 := shopifyGraphQL_mem env b _ x hx
    subst hx2
    rfl
  have g2 : ∀ (b : Bool) (s1 s2 s3 s4 : String),
      ∀ x ∈ (shopifyGraphQL env b (Event.gqlOrderEditSetProps s1 s2 s3 s4)).1,
        Event.isOrderEdit x = true := by
    intro b s1 s2 s3 s4 x hx
    have hx2 := shopifyGraphQL_mem env b _ x hx
    subst hx2
    rfl
  have g3 : ∀ (b : Bool) (s : String) (nb : Bool),
      ∀ x ∈ (shopifyGraphQL env b (Event.gqlOrderEditCommit s nb)).1,
        Event.isOrderEdit x = true := by
    intro b s nb x hx
    have hx2 := shopifyGraphQL_mem env b _ x hx
    subst hx2
    rfl
  simp only [updateOrderLineItemProperty] at h
  repeat' split at h
  all_goals try dsimp only at h
  all_goals
    first
    | exact g1 _ _ _ h
    | exact forall_mem_append_closed (g1 _ _) (g2 _ _ _ _ _) _ h
    | exact forall_mem_append_closed
        (forall_mem_append_closed (g1 _ _) (g2 _ _ _ _ _)) (g3 _ _ _) _ h

theorem fetchRotateLoop_mem (world : World) (url : String) (angle : JsVal) :
    ∀ (r a : Nat) (e : Event), e ∈ (fetchRotateLoop world url angle a r).1 →
      e = Event.fetch url ∨ e = Event.rotate angle ∨ e = Event.sleep 60000 := by
  intro r
  induction r with
  | zero =>
    intro a e h
    simp [fetchRotateLoop] at h
  | succ k ih =>
    intro a e h
    simp only [fetchRotateLoop] at h
    rcases ho : world.attemptOutcome a with _ | _ | buf <;> simp only [ho] at h
    · by_cases hk : k = 0
      · subst hk
        simp at h
        simp [h]
      · rw [if_neg hk] at h
        simp at h
        rcases h with h | h | h
        · simp [h]
        · simp [h]
        · exact ih (a + 1) e h
    · by_cases hk : k = 0
      · subst hk
        simp at h
        rcases h with h | h <;> simp [h]
      · rw [if_neg hk] at h
        simp at h
        rcases h with h | h | h | h
        · simp [h]
        · simp [h]
        · simp [h]
        · exact ih (a + 1) e h
    · simp at h
      rcases h with h | h <;> simp [h]

theorem setProductMetafield_events (env : ShopifyEnv) (world : World)
    (pid ns k : JsVal) (v : String) (hs : shopifyOk env = true) :
    (setProductMetafield env world pid ns k v).1 =
      [Event.gqlMetafieldsSet ("gid://shopify/Product/" ++ pid.jsToString)
        ns k "single_line_text_field" v] := by
  simp only [setProductMetafield, shopifyGraphQL, hs]
  cases hh : world.metafieldHttpOk <;>
    cases hu : world.metafieldUserErrors <;> simp [hh, hu]

theorem setProductMetafield_err (env : ShopifyEnv) (world : World)
    (pid ns k : JsVal) (v : String) (hu : world.metafieldUserErrors ≠ []) :
    (setProductMetafield env world pid ns k v).2 = Except.error () := by
  simp only [setProductMetafield, shopifyGraphQL]
  cases hs : shopifyOk env <;> cases hh : world.metafieldHttpOk <;>
    simp [hs, hh, List.isEmpty_iff, hu]

theorem uploadToR2_ok_events (r2 : R2Env) (world : World) (buf : Buffer)
    (fn : String) (U : String)
    (h : (uploadToR2 r2 world buf fn).2 = Except.ok U) :
    (uploadToR2 r2 world buf fn).1 =
      [Event.r2Put r2.bucketName.jsToString ("rotated/" ++ fn)] := by
  unfold uploadToR2 at h ⊢
  cases hc : r2Complete r2 <;> cases hsend : world.r2SendOk <;> simp_all

/-- The part of the job trace after a successful download-and-rotate
loop: upload, metafield mutation, and optional order edit. -/
def jobTail (env : ShopifyEnv) (r2 : R2Env) (world : World) (p : Payload)
    (buf : Buffer) : List Event :=
  let up := uploadToR2 r2 world buf (mkFilename p world)
  match up.2 with
  | Except.error _ => up.1
  | Except.ok finalImageUrl =>
    let mf := setProductMetafield env world p.product_id
      p.metafield_namespace p.metafield_key finalImageUrl
    match mf.2 with
    | Except.error _ => up.1 ++ mf.1
    | Except.ok _ =>
      if p.order_id.truthy && p.line_item_id.truthy then
        up.1 ++ mf.1 ++
          (updateOrderLineItemProperty env world p.order_id.jsToString
            p.line_item_id.jsToString "_tib_design_link_1" finalImageUrl).1
      else up.1 ++ mf.1

theorem processJob_none (env : ShopifyEnv) (r2 : R2Env) (world : World)
    (p : Payload) (hv : payloadValid p = true) (hs : shopifyOk env = true)
    (hloop : (fetchRotateLoop world p.image_url.jsToString
      (effectiveRotation p) 1 4).2 = none) :
    processRotateAndUpdateJob env r2 world p =
      Event.sleep 180000 ::
        (fetchRotateLoop world p.image_url.jsToString
          (effectiveRotation p) 1 4).1 := by
  simp only [processRotateAndUpdateJob, hv, hs, if_true, hloop]

theorem processJob_some (env : ShopifyEnv) (r2 : R2Env) (world : World)
    (p : Payload) (buf : Buffer)
    (hv : payloadValid p = true) (hs : shopifyOk env = true)
    (hloop : (fetchRotateLoop world p.image_url.jsToString
      (effectiveRotation p) 1 4).2 = some buf) :
    processRotateAndUpdateJob env r2 world p =
      Event.sleep 180000 ::
        ((fetchRotateLoop world p.image_url.jsToString
          (effectiveRotation p) 1 4).1 ++ jobTail env r2 world p buf) := by
  simp only [processRotateAndUpdateJob, jobTail, hv, hs, if_true, hloop]
  rcases hup : (uploadToR2 r2 world buf (mkFilename p world)).2 with _ | U <;>
    simp only [hup]
  · simp
  rcases hmf : (setProductMetafield env world p.product_id
      p.metafield_namespace p.metafield_key U).2 with _ | u <;>
    simp only [hmf]
  · simp
  by_cases hord : (p.order_id.truthy && p.line_item_id.truthy) = true <;>
    simp [hord]

theorem jobTail_mem (env : ShopifyEnv) (r2 : R2Env) (world : World)
    (p : Payload) (buf : Buffer) (e : Event)
    (h : e ∈ jobTail env r2 world p buf) :
    Event.isR2Put e = true ∨ Event.isMetafieldsSet e = true ∨
      Event.isOrderEdit e = true := by
  simp only [jobTail] at h
  repeat' split at h
  all_goals
    first
    | exact Or.inl (uploadToR2_mem _ _ _ _ _ h)
    | (rcases List.mem_append.mp h with hh | hh
       · exact Or.inl (uploadToR2_mem _ _ _ _ _ hh)
       · exact Or.inr (Or.inl (setProductMetafield_mem _ _ _ _ _ _ _ hh)))
    | (rcases List.mem_append.mp h with hh | hh
       · rcases List.mem_append.mp hh with hhh | hhh
         · exact Or.inl (uploadToR2_mem _ _ _ _ _ hhh)
         · exact Or.inr (Or.inl (setProductMetafield_mem _ _ _ _ _ _ _ hhh))
       · exact Or.inr (Or.inr
          (updateOrderLineItemProperty_mem _ _ _ _ _ _ _ hh)))

/-! ## Concrete fixtures used by the witness theorems -/

/-- A complete Shopify environment. -/
def envW : ShopifyEnv :=
  { storeDomain := JsVal.str "shop.example.com",
    accessToken := JsVal.str "token" }

/-- A complete R2 environment. -/
def r2W : R2Env :=
  { accessKeyId := JsVal.str "key",
    secretAccessKey := JsVal.str "secret",
    bucketName := JsVal.str "bucket",
    endpoint := JsVal.str "https://acct.r2.cloudflarestorage.com",
    publicBaseUrl := JsVal.str "https://pub.example" }

/-- A world in which every external call succeeds. -/
def worldW : World :=
  { now := 1700000000000,
    attemptOutcome := fun _ => AttemptOutcome.ok [1],
    r2SendOk := true,
    metafieldHttpOk := true,
    metafieldUserErrors := [],
    beginHttpOk := true,
    beginUserErrors := [],
    beginCalcOrder := some
      { id := "gid://shopify/CalculatedOrder/1",
        edges := [{ nodeId := "gid://shopify/CalculatedLineItem/9",
                    origId := JsVal.str "gid://shopify/LineItem/777" }] },
    setPropsHttpOk := true,
    setPropsUserErrors := [],
    commitHttpOk := true,
    commitUserErrors := [] }

/-- A world in which every image fetch fails. -/
def worldFail : World :=
  { worldW with attemptOutcome := fun _ => AttemptOutcome.fetchFail }

/-- A valid payload without order fields. -/
def pOK : Payload :=
  { image_url := JsVal.str "https://x/img.png",
    product_id := JsVal.num 42,
    metafield_namespace := JsVal.str "custom",
    metafield_key := JsVal.str "design_link",
    rotation := JsVal.num 90,
    order_id := JsVal.undefined,
    line_item_id := JsVal.undefined }

/-- A payload whose image_url is missing. -/
def pMissing : Payload :=
  { pOK with image_url := JsVal.undefined }

/-! ## Claims -/

/-- C2: for every Job payload in which any of image_url, product_id,
metafield_namespace, or metafield_key is missing, the workflow performs
zero outbound calls (empty trace, hence no fetch, upload or mutation)
and returns without raising, while the HTTP endpoint has already
answered 200 accepted. -/
theorem c2_missing_field_no_calls (env : ShopifyEnv) (r2 : R2Env)
    (world : World) (p : Payload)
    (h : p.image_url = JsVal.undefined ∨ p.product_id = JsVal.undefined ∨
      p.metafield_namespace = JsVal.undefined ∨
      p.metafield_key = JsVal.undefined) :
    (postRotateAndUpdate env r2 world p).2 = [] ∧
      (postRotateAndUpdate env r2 world p).1 =
        { status := 200, body := "accepted" } := by
  refine ⟨?_, rfl⟩
  have hv : payloadValid p = false := by
    rcases h with h | h | h | h <;> simp [payloadValid, h, JsVal.truthy]
  simp [postRotateAndUpdate, processRotateAndUpdateJob, hv]

/-- Witness for C2 at a concrete payload with image_url missing. -/
theorem c2_missing_field_no_calls_witness :
    (postRotateAndUpdate envW r2W worldW pMissing).2 = [] ∧
      (postRotateAndUpdate envW r2W worldW pMissing).1 =
        { status := 200, body := "accepted" } :=
  c2_missing_field_no_calls envW r2W worldW pMissing (Or.inl rfl)

/-- C3: for every valid Job in a configured environment whose image
fetch fails on all of the first 4 attempts, the trace is exactly the
3-minute sleep, then 4 fetch attempts separated by 1-minute sleeps
(3 sleeps, none after the last attempt), with no upload, no metafield
mutation and no order edit. -/
theorem c3_all_fetches_fail (env : ShopifyEnv) (r2 : R2Env) (world : World)
    (p : Payload) (hv : payloadValid p = true) (hs : shopifyOk env = true)
    (hf : ∀ a, 1 ≤ a → a ≤ 4 →
      world.attemptOutcome a = AttemptOutcome.fetchFail) :
    processRotateAndUpdateJob env r2 world p =
      [Event.sleep 180000,
       Event.fetch p.image_url.jsToString, Event.sleep 60000,
       Event.fetch p.image_url.jsToString, Event.sleep 60000,
       Event.fetch p.image_url.jsToString, Event.sleep 60000,
       Event.fetch p.image_url.jsToString] := by
  have h1 := hf 1 (by omega) (by omega)
  have h2 := hf 2 (by omega) (by omega)
  have h3 := hf 3 (by omega) (by omega)
  have h4 := hf 4 (by omega) (by omega)
  have hloop : fetchRotateLoop world p.image_url.jsToString
      (effectiveRotation p) 1 4 =
      ([Event.fetch p.image_url.jsToString, Event.sleep 60000,
        Event.fetch p.image_url.jsToString, Event.sleep 60000,
        Event.fetch p.image_url.jsToString, Event.sleep 60000,
        Event.fetch p.image_url.jsToString], none) := by
    simp [fetchRotateLoop, h1, h2, h3, h4]
  have := processJob_none env r2 world p hv hs (by rw [hloop])
  rw [this, hloop]

/-- Witness for C3 at a concrete all-failures world. -/
theorem c3_all_fetches_fail_witness :
    payloadValid pOK = true ∧
      processRotateAndUpdateJob envW r2W worldFail pOK =
        [Event.sleep 180000,
         Event.fetch "https://x/img.png", Event.sleep 60000,
         Event.fetch "https://x/img.png", Event.sleep 60000,
         Event.fetch "https://x/img.png", Event.sleep 60000,
         Event.fetch "https://x/img.png"] :=
  ⟨by decide,
    c3_all_fetches_fail envW r2W worldFail pOK (by decide) (by decide)
      (fun a _ _ => rfl)⟩

/-- C7: for every complete R2 configuration and successful PutObject,
uploadToR2 returns the URL built by stripping a trailing slash from the
public base URL, appending the bucket segment only when the base does
not already end with it, and appending the object key rotated/filename. -/
theorem c7_r2_url_construction (r2 : R2Env) (world : World) (buf : Buffer)
    (filename : String) (hc : r2Complete r2 = true)
    (hsend : world.r2SendOk = true) :
    (uploadToR2 r2 world buf filename).2 =
      Except.ok
        ((if strEndsWith (dropTrailingSlash r2.publicBaseUrl.jsToString)
              ("/" ++ r2.bucketName.jsToString) then
            dropTrailingSlash r2.publicBaseUrl.jsToString
          else
            dropTrailingSlash r2.publicBaseUrl.jsToString ++
              ("/" ++ r2.bucketName.jsToString)) ++
          "/" ++ ("rotated/" ++ filename)) := by
  simp [uploadToR2, hc, hsend]

/-- Witness for C7 at a concrete R2 environment. -/
theorem c7_r2_url_construction_witness :
    r2Complete r2W = true ∧
      (uploadToR2 r2W worldW [1] "f.png").2 =
        Except.ok
          ((if strEndsWith (dropTrailingSlash r2W.publicBaseUrl.jsToString)
                ("/" ++ r2W.bucketName.jsToString) then
              dropTrailingSlash r2W.publicBaseUrl.jsToString
            else
              dropTrailingSlash r2W.publicBaseUrl.jsToString ++
                ("/" ++ r2W.bucketName.jsToString)) ++
            "/" ++ ("rotated/" ++ "f.png")) :=
  ⟨by decide, c7_r2_url_construction r2W worldW [1] "f.png" (by decide) rfl⟩

/-! ## Position lemmas: an event class occurring only at the end -/

theorem lastPos_of_no_sat (f : Event → Bool) (l : List Event)
    (h : ∀ e ∈ l, f e = false) :
    ∀ i (hi : i < l.length), f l[i] = true → i + 1 = l.length := by
  intro i hi hf
  have := h l[i] (List.getElem_mem hi)
  rw [this] at hf
  exact absurd hf (by simp)

theorem lastPos_append_single (f : Event → Bool) (C : List Event) (m : Event)
    (h : ∀ e ∈ C, f e = false) :
    ∀ i (hi : i < (C ++ [m]).length), f (C ++ [m])[i] = true →
      i + 1 = (C ++ [m]).length := by
  intro i hi hf
  by_cases hic : i < C.length
  · exfalso
    have heq : (C ++ [m])[i] = C[i] := List.getElem_append_left hic
    rw [heq, h C[i] (List.getElem_mem hic)] at hf
    exact absurd hf (by simp)
  · simp only [List.length_append, List.length_singleton] at hi ⊢
    omega

/-! ## Event class facts for the pieces of the trace -/

theorem loop_no_mfs_order (world : World) (url : String) (angle : JsVal)
    (a r : Nat) :
    ∀ e ∈ (fetchRotateLoop world url angle a r).1,
      Event.isMetafieldsSet e = false ∧ Event.isOrderEdit e = false ∧
        Event.isR2Put e = false := by
  intro e he
  rcases fetchRotateLoop_mem world url angle r a e he with h | h | h <;>
    subst h <;> exact ⟨rfl, rfl, rfl⟩

theorem upload_no_mfs_order (r2 : R2Env) (world : World) (buf : Buffer)
    (fn : String) :
    ∀ e ∈ (uploadToR2 r2 world buf fn).1,
      Event.isMetafieldsSet e = false ∧ Event.isOrderEdit e = false := by
  intro e he
  have := uploadToR2_mem r2 world buf fn e he
  cases e <;> simp_all [Event.isR2Put, Event.isMetafieldsSet, Event.isOrderEdit]

theorem mfs_not_orderEdit (e : Event) (h : Event.isMetafieldsSet e = true) :
    Event.isOrderEdit e = false := by
  cases e <;> simp_all [Event.isMetafieldsSet, Event.isOrderEdit]

theorem orderEdit_not_mfs (e : Event) (h : Event.isOrderEdit e = true) :
    Event.isMetafieldsSet e = false := by
  cases e <;> simp_all [Event.isMetafieldsSet, Event.isOrderEdit]

/-- C4: if the metafieldsSet response carries a non-empty user-error
list, the workflow halts immediately: no order-edit mutation appears in
the trace (even when order_id and line_item_id are present), and the
metafieldsSet event, when it occurs, is the last event of the trace. -/
theorem c4_metafield_user_errors_halt (env : ShopifyEnv) (r2 : R2Env)
    (world : World) (p : Payload)
    (hu : world.metafieldUserErrors ≠ []) :
    countEvents Event.isOrderEdit (processRotateAndUpdateJob env r2 world p)
        = 0 ∧
      ∀ i (hi : i < (processRotateAndUpdateJob env r2 world p).length),
        Event.isMetafieldsSet (processRotateAndUpdateJob env r2 world p)[i]
            = true →
          i + 1 = (processRotateAndUpdateJob env r2 world p).length := by
  by_cases hv : payloadValid p = true
  · by_cases hs : shopifyOk env = true
    · rcases hloopo : (fetchRotateLoop world p.image_url.jsToString
        (effectiveRotation p) 1 4).2 with _ | buf
      · rw [processJob_none env r2 world p hv hs hloopo]
        have hfacts : ∀ e ∈ Event.sleep 180000 ::
            (fetchRotateLoop world p.image_url.jsToString
              (effectiveRotation p) 1 4).1,
            Event.isMetafieldsSet e = false ∧ Event.isOrderEdit e = false := by
          intro e he
          rcases List.mem_cons.mp he with h | h
          · subst h; exact ⟨rfl, rfl⟩
          · have := loop_no_mfs_order world _ _ 1 4 e h
            exact ⟨this.1, this.2.1⟩
        exact ⟨countEvents_eq_zero _ _ (fun e he => (hfacts e he).2),
          lastPos_of_no_sat _ _ (fun e he => (hfacts e he).1)⟩
      · rw [processJob_some env r2 world p buf hv hs hloopo]
        rcases hup : (uploadToR2 r2 world buf (mkFilename p world)).2 with _ | U
        · have htail : jobTail env r2 world p buf =
              (uploadToR2 r2 world buf (mkFilename p world)).1 := by
            simp only [jobTail, hup]
          rw [htail]
          have hfacts : ∀ e ∈ Event.sleep 180000 ::
              ((fetchRotateLoop world p.image_url.jsToString
                (effectiveRotation p) 1 4).1 ++
                (uploadToR2 r2 world buf (mkFilename p world)).1),
              Event.isMetafieldsSet e = false ∧
                Event.isOrderEdit e = false := by
            intro e he
            rcases List.mem_cons.mp he with h | h
            · subst h; exact ⟨rfl, rfl⟩
            rcases List.mem_append.mp h with h | h
            · have := loop_no_mfs_order world _ _ 1 4 e h
              exact ⟨this.1, this.2.1⟩
            · exact upload_no_mfs_order r2 world buf _ e h
          exact ⟨countEvents_eq_zero _ _ (fun e he => (hfacts e he).2),
            lastPos_of_no_sat _ _ (fun e he => (hfacts e he).1)⟩
        · have hmf2 := setProductMetafield_err env world p.product_id
            p.metafield_namespace p.metafield_key U hu
          have htail : jobTail env r2 world p buf =
              (uploadToR2 r2 world buf (mkFilename p world)).1 ++
                (setProductMetafield env world p.product_id
                  p.metafield_namespace p.metafield_key U).1 := by
            simp only [jobTail, hup, hmf2]
          rw [htail, setProductMetafield_events env world p.product_id
            p.metafield_namespace p.metafield_key U hs]
          have hassoc : Event.sleep 180000 ::
              ((fetchRotateLoop world p.image_url.jsToString
                (effectiveRotation p) 1 4).1 ++
                ((uploadToR2 r2 world buf (mkFilename p world)).1 ++
                  [Event.gqlMetafieldsSet
                    ("gid://shopify/Product/" ++ p.product_id.jsToString)
                    p.metafield_namespace p.metafield_key
                    "single_line_text_field" U])) =
              (Event.sleep 180000 ::
                ((fetchRotateLoop world p.image_url.jsToString
                  (effectiveRotation p) 1 4).1 ++
                  (uploadToR2 r2 world buf (mkFilename p world)).1)) ++
                [Event.gqlMetafieldsSet
                  ("gid://shopify/Product/" ++ p.product_id.jsToString)
                  p.metafield_namespace p.metafield_key
                  "single_line_text_field" U] := by
            simp
          rw [hassoc]
          have hfacts : ∀ e ∈ Event.sleep 180000 ::
              ((fetchRotateLoop world p.image_url.jsToString
                (effectiveRotation p) 1 4).1 ++
                (uploadToR2 r2 world buf (mkFilename p world)).1),
              Event.isMetafieldsSet e = false ∧
                Event.isOrderEdit e = false := by
            intro e he
            rcases List.mem_cons.mp he with h | h
            · subst h; exact ⟨rfl, rfl⟩
            rcases List.mem_append.mp h with h | h
            · have := loop_no_mfs_order world _ _ 1 4 e h
              exact ⟨this.1, this.2.1⟩
            · exact upload_no_mfs_order r2 world buf _ e h
          constructor
          · apply countEvents_eq_zero
            intro e he
            rcases List.mem_append.mp he with h | h
            · exact (hfacts e h).2
            · rcases List.mem_singleton.mp h with rfl
              rfl
          · exact lastPos_append_single _ _ _
              (fun e he => (hfacts e he).1)
    · have : processRotateAndUpdateJob env r2 world p = [] := by
        simp [processRotateAndUpdateJob, hv, hs]
      rw [this]
      exact ⟨rfl, fun i hi => absurd hi (by simp)⟩
  · have : processRotateAndUpdateJob env r2 world p = [] := by
      simp [processRotateAndUpdateJob, hv]
    rw [this]
    exact ⟨rfl, fun i hi => absurd hi (by simp)⟩

/-- A world whose metafieldsSet response carries one user error. -/
def worldMfErr : World := { worldW with metafieldUserErrors := ["boom"] }

/-- A valid payload that also carries order_id and line_item_id. -/
def pOrder : Payload :=
  { pOK with order_id := JsVal.num 12509549003127,
             line_item_id := JsVal.num 777 }

/-- Witness for C4 at a concrete world with a metafield user error and
a payload carrying order fields. -/
theorem c4_metafield_user_errors_halt_witness :
    countEvents Event.isOrderEdit
        (processRotateAndUpdateJob envW r2W worldMfErr pOrder) = 0 ∧
      ∀ i (hi : i <
          (processRotateAndUpdateJob envW r2W worldMfErr pOrder).length),
        Event.isMetafieldsSet
            (processRotateAndUpdateJob envW r2W worldMfErr pOrder)[i]
            = true →
          i + 1 =
            (processRotateAndUpdateJob envW r2W worldMfErr pOrder).length :=
  c4_metafield_user_errors_halt envW r2W worldMfErr pOrder (by decide)

theorem countEvents_cons (f : Event → Bool) (a : Event) (l : List Event) :
    countEvents f (a :: l) = (if f a then 1 else 0) + countEvents f l := by
  simp only [countEvents, List.filter_cons]
  split <;> simp [Nat.add_comm]

/-- C1: for every Job whose download-and-rotate loop succeeds and whose
R2 upload returns the URL U, the trace contains exactly one
metafieldsSet mutation, and that mutation carries ownerId
gid://shopify/Product/ followed by the product id, the Job namespace
and key, type single_line_text_field, and value U. -/
theorem c1_metafield_set_once (env : ShopifyEnv) (r2 : R2Env)
    (world : World) (p : Payload) (buf : Buffer) (U : String)
    (hv : payloadValid p = true) (hs : shopifyOk env = true)
    (hloop : (fetchRotateLoop world p.image_url.jsToString
      (effectiveRotation p) 1 4).2 = some buf)
    (hup : (uploadToR2 r2 world buf (mkFilename p world)).2 = Except.ok U) :
    countEvents Event.isMetafieldsSet
        (processRotateAndUpdateJob env r2 world p) = 1 ∧
      Event.gqlMetafieldsSet
          ("gid://shopify/Product/" ++ p.product_id.jsToString)
          p.metafield_namespace p.metafield_key "single_line_text_field" U
        ∈ processRotateAndUpdateJob env r2 world p := by
  have hup1 := uploadToR2_ok_events r2 world buf (mkFilename p world) U hup
  have hmf1 := setProductMetafield_events env world p.product_id
    p.metafield_namespace p.metafield_key U hs
  have htail : countEvents Event.isMetafieldsSet
      (jobTail env r2 world p buf) = 1 ∧
      Event.gqlMetafieldsSet
          ("gid://shopify/Product/" ++ p.product_id.jsToString)
          p.metafield_namespace p.metafield_key "single_line_text_field" U
        ∈ jobTail env r2 world p buf := by
    simp only [jobTail, hup]
    rcases hmf : (setProductMetafield env world p.product_id
        p.metafield_namespace p.metafield_key U).2 with _ | u <;>
      simp only [hmf]
    · rw [hup1, hmf1]
      exact ⟨rfl, by simp⟩
    · by_cases hord : (p.order_id.truthy && p.line_item_id.truthy) = true
      · rw [if_pos hord]
        constructor
        · rw [countEvents_append, countEvents_append, hup1, hmf1]
          have hordcnt : countEvents Event.isMetafieldsSet
              (updateOrderLineItemProperty env world p.order_id.jsToString
                p.line_item_id.jsToString "_tib_design_link_1" U).1 = 0 :=
            countEvents_eq_zero _ _ (fun e he =>
              orderEdit_not_mfs e
                (updateOrderLineItemProperty_mem env world _ _ _ _ e he))
          rw [hordcnt]
          rfl
        · rw [hup1, hmf1]
          simp
      · rw [if_neg hord, hup1, hmf1]
        exact ⟨rfl, by simp⟩
  rw [processJob_some env r2 world p buf hv hs hloop]
  constructor
  · rw [countEvents_cons, countEvents_append, htail.1,
      countEvents_eq_zero _ _ (fun e he =>
        (loop_no_mfs_order world _ _ 1 4 e he).1)]
    rfl
  · exact List.mem_cons_of_mem _ (List.mem_append_right _ htail.2)

/-- The URL that uploadToR2 returns for the r2W fixture and the pOK
filename. -/
def urlW : String :=
  "https://pub.example/bucket/rotated/rotated-42-1700000000000.png"

/-- Witness for C1 at the all-success fixture. -/
theorem c1_metafield_set_once_witness :
    countEvents Event.isMetafieldsSet
        (processRotateAndUpdateJob envW r2W worldW pOK) = 1 ∧
      Event.gqlMetafieldsSet
          ("gid://shopify/Product/" ++ pOK.product_id.jsToString)
          pOK.metafield_namespace pOK.metafield_key
          "single_line_text_field" urlW
        ∈ processRotateAndUpdateJob envW r2W worldW pOK :=
  c1_metafield_set_once envW r2W worldW pOK [1] urlW (by decide) (by decide)
    rfl rfl

theorem uploadToR2_events_complete (r2 : R2Env) (world : World)
    (buf : Buffer) (fn : String) (hc : r2Complete r2 = true) :
    (uploadToR2 r2 world buf fn).1 =
      [Event.r2Put r2.bucketName.jsToString ("rotated/" ++ fn)] := by
  simp only [uploadToR2, hc, if_true]
  cases hsend : world.r2SendOk <;> simp

theorem jobTail_starts_with_put (env : ShopifyEnv) (r2 : R2Env)
    (world : World) (p : Payload) (buf : Buffer)
    (hc : r2Complete r2 = true) :
    Event.r2Put r2.bucketName.jsToString ("rotated/" ++ mkFilename p world)
      ∈ jobTail env r2 world p buf := by
  have hup1 := uploadToR2_events_complete r2 world buf (mkFilename p world) hc
  simp only [jobTail]
  rcases hup : (uploadToR2 r2 world buf (mkFilename p world)).2 with _ | U <;>
    simp only [hup]
  · rw [hup1]; simp
  rcases hmf : (setProductMetafield env world p.product_id
      p.metafield_namespace p.metafield_key U).2 with _ | u <;>
    simp only [hmf]
  · rw [hup1]; simp
  by_cases hord : (p.order_id.truthy && p.line_item_id.truthy) = true
  · rw [if_pos hord, hup1]; simp
  · rw [if_neg hord, hup1]; simp

/-- C5: for every valid Job in a configured environment with a complete
R2 configuration, if the image fetch fails on attempts 1 and 2 and
succeeds on attempt 3, the trace starts with the 3-minute sleep, then
exactly the events fetch, sleep-1-minute, fetch, sleep-1-minute, fetch,
rotate (2 failures, 1 success, no 4th attempt), and the remaining
events contain no fetch and no sleep and include the R2 PutObject call:
the workflow proceeds to the storage step. -/
theorem c5_success_on_third_attempt (env : ShopifyEnv) (r2 : R2Env)
    (world : World) (p : Payload) (buf : Buffer)
    (hv : payloadValid p = true) (hs : shopifyOk env = true)
    (h1 : world.attemptOutcome 1 = AttemptOutcome.fetchFail)
    (h2 : world.attemptOutcome 2 = AttemptOutcome.fetchFail)
    (h3 : world.attemptOutcome 3 = AttemptOutcome.ok buf)
    (hc : r2Complete r2 = true) :
    ∃ rest,
      processRotateAndUpdateJob env r2 world p =
        [Event.sleep 180000,
         Event.fetch p.image_url.jsToString, Event.sleep 60000,
         Event.fetch p.image_url.jsToString, Event.sleep 60000,
         Event.fetch p.image_url.jsToString,
         Event.rotate (effectiveRotation p)] ++ rest ∧
        countEvents Event.isFetch rest = 0 ∧
        countEvents Event.isSleep rest = 0 ∧
        Event.r2Put r2.bucketName.jsToString
            ("rotated/" ++ mkFilename p world) ∈ rest := by
  have hloop : fetchRotateLoop world p.image_url.jsToString
      (effectiveRotation p) 1 4 =
      ([Event.fetch p.image_url.jsToString, Event.sleep 60000,
        Event.fetch p.image_url.jsToString, Event.sleep 60000,
        Event.fetch p.image_url.jsToString,
        Event.rotate (effectiveRotation p)], some buf) := by
    simp [fetchRotateLoop, h1, h2, h3]
  refine ⟨jobTail env r2 world p buf, ?_, ?_, ?_, ?_⟩
  · have := processJob_some env r2 world p buf hv hs (by rw [hloop])
    rw [this, hloop]
    simp
  · apply countEvents_eq_zero
    intro e he
    rcases jobTail_mem env r2 world p buf e he with h | h | h <;>
      cases e <;> simp_all [Event.isR2Put, Event.isMetafieldsSet,
        Event.isOrderEdit, Event.isFetch]
  · apply countEvents_eq_zero
    intro e he
    rcases jobTail_mem env r2 world p buf e he with h | h | h <;>
      cases e <;> simp_all [Event.isR2Put, Event.isMetafieldsSet,
        Event.isOrderEdit, Event.isSleep]
  · exact jobTail_starts_with_put env r2 world p buf hc

/-- A world in which the fetch fails twice and succeeds on the third
attempt. -/
def worldThird : World :=
  { worldW with attemptOutcome := fun a =>
      if a ≤ 2 then AttemptOutcome.fetchFail else AttemptOutcome.ok [1] }

/-- Witness for C5 at a concrete succeed-on-third world. -/
theorem c5_success_on_third_attempt_witness :
    ∃ rest,
      processRotateAndUpdateJob envW r2W worldThird pOK =
        [Event.sleep 180000,
         Event.fetch pOK.image_url.jsToString, Event.sleep 60000,
         Event.fetch pOK.image_url.jsToString, Event.sleep 60000,
         Event.fetch pOK.image_url.jsToString,
         Event.rotate (effectiveRotation pOK)] ++ rest ∧
        countEvents Event.isFetch rest = 0 ∧
        countEvents Event.isSleep rest = 0 ∧
        Event.r2Put r2W.bucketName.jsToString
            ("rotated/" ++ mkFilename pOK worldThird) ∈ rest :=
  c5_success_on_third_attempt envW r2W worldThird pOK [1]
    (by decide) (by decide) rfl rfl rfl (by decide)

/-- C6: for every valid Job in a configured environment, the first
event of the trace is the fixed 3-minute (180000 ms) sleep, so no
outbound call precedes it; and when the first fetch attempt already
succeeds, the sleep events of the whole trace are exactly that single
180-second sleep: no retry waits. -/
theorem c6_initial_delay (env : ShopifyEnv) (r2 : R2Env) (world : World)
    (p : Payload) (hv : payloadValid p = true) (hs : shopifyOk env = true) :
    (processRotateAndUpdateJob env r2 world p).head? =
        some (Event.sleep 180000) ∧
      ∀ buf, world.attemptOutcome 1 = AttemptOutcome.ok buf →
        (processRotateAndUpdateJob env r2 world p).filter Event.isSleep =
          [Event.sleep 180000] := by
  constructor
  · rcases hloopo : (fetchRotateLoop world p.image_url.jsToString
      (effectiveRotation p) 1 4).2 with _ | buf
    · rw [processJob_none env r2 world p hv hs hloopo]
      rfl
    · rw [processJob_some env r2 world p buf hv hs hloopo]
      rfl
  · intro buf h1
    have hloop : fetchRotateLoop world p.image_url.jsToString
        (effectiveRotation p) 1 4 =
        ([Event.fetch p.image_url.jsToString,
          Event.rotate (effectiveRotation p)], some buf) := by
      simp [fetchRotateLoop, h1]
    rw [processJob_some env r2 world p buf hv hs (by rw [hloop]), hloop]
    have htail : (jobTail env r2 world p buf).filter Event.isSleep = [] := by
      apply filter_nil_of_all_false
      intro e he
      rcases jobTail_mem env r2 world p buf e he with h | h | h <;>
        cases e <;> simp_all [Event.isR2Put, Event.isMetafieldsSet,
          Event.isOrderEdit, Event.isSleep]
    simp [List.filter_append, htail, Event.isSleep, Event.isFetch,
      Event.isRotate]

/-- Witness for C6 at the all-success fixture. -/
theorem c6_initial_delay_witness :
    (processRotateAndUpdateJob envW r2W worldW pOK).head? =
        some (Event.sleep 180000) ∧
      ∀ buf, worldW.attemptOutcome 1 = AttemptOutcome.ok buf →
        (processRotateAndUpdateJob envW r2W worldW pOK).filter
            Event.isSleep = [Event.sleep 180000] :=
  c6_initial_delay envW r2W worldW pOK (by decide) (by decide)

/-- C8: in updateOrderLineItemProperty, a user-error at orderEditBegin,
a failed calculated-line-item lookup, a user-error at
orderEditSetLineItemProperties, or a user-error at orderEditCommit each
raises an error and the remaining steps are not executed: the trace
stops at the failing step. -/
theorem c8_order_edit_aborts (env : ShopifyEnv) (world : World)
    (oid lid pn nv : String) (hs : shopifyOk env = true) :
    (world.beginHttpOk = true → world.beginUserErrors ≠ [] →
      updateOrderLineItemProperty env world oid lid pn nv =
        ([Event.gqlOrderEditBegin ("gid://shopify/Order/" ++ oid)],
          Except.error ())) ∧
    (world.beginHttpOk = true → world.beginUserErrors = [] →
      (world.beginCalcOrder = none ∨
        ∃ co, world.beginCalcOrder = some co ∧
          findCalculatedLineItem co.edges
            ("gid://shopify/LineItem/" ++ lid) = none) →
      updateOrderLineItemProperty env world oid lid pn nv =
        ([Event.gqlOrderEditBegin ("gid://shopify/Order/" ++ oid)],
          Except.error ())) ∧
    (∀ co cid, world.beginHttpOk = true → world.beginUserErrors = [] →
      world.beginCalcOrder = some co →
      findCalculatedLineItem co.edges
        ("gid://shopify/LineItem/" ++ lid) = some cid →
      world.setPropsHttpOk = true → world.setPropsUserErrors ≠ [] →
      updateOrderLineItemProperty env world oid lid pn nv =
        ([Event.gqlOrderEditBegin ("gid://shopify/Order/" ++ oid),
          Event.gqlOrderEditSetProps co.id cid pn nv],
          Except.error ())) ∧
    (∀ co cid, world.beginHttpOk = true → world.beginUserErrors = [] →
      world.beginCalcOrder = some co →
      findCalculatedLineItem co.edges
        ("gid://shopify/LineItem/" ++ lid) = some cid →
      world.setPropsHttpOk = true → world.setPropsUserErrors = [] →
      world.commitHttpOk = true → world.commitUserErrors ≠ [] →
      updateOrderLineItemProperty env world oid lid pn nv =
        ([Event.gqlOrderEditBegin ("gid://shopify/Order/" ++ oid),
          Event.gqlOrderEditSetProps co.id cid pn nv,
          Event.gqlOrderEditCommit co.id false],
          Except.error ())) := by
  refine ⟨?_, ?_, ?_, ?_⟩
  · intro hb hu
    simp [updateOrderLineItemProperty, shopifyGraphQL, hs, hb,
      List.isEmpty_iff, hu]
  · intro hb hu hlk
    rcases hlk with hnone | ⟨co, hco, hfind⟩
    · simp [updateOrderLineItemProperty, shopifyGraphQL, hs, hb, hu, hnone]
    · simp [updateOrderLineItemProperty, shopifyGraphQL, hs, hb, hu,
        hco, hfind]
  · intro co cid hb hu hco hfind hb2 hu2
    simp [updateOrderLineItemProperty, shopifyGraphQL, hs, hb, hu,
      hco, hfind, hb2, List.isEmpty_iff, hu2]
  · intro co cid hb hu hco hfind hb2 hu2 hb3 hu3
    simp [updateOrderLineItemProperty, shopifyGraphQL, hs, hb, hu,
      hco, hfind, hb2, hu2, hb3, List.isEmpty_iff, hu3]

/-- A world whose orderEditBegin response carries one user error. -/
def worldBeginErr : World := { worldW with beginUserErrors := ["bad"] }

/-- Witness for C8 at a concrete world failing at orderEditBegin. -/
theorem c8_order_edit_aborts_witness :
    updateOrderLineItemProperty envW worldBeginErr "12509549003127" "777"
        "_tib_design_link_1" "https://u" =
      ([Event.gqlOrderEditBegin "gid://shopify/Order/12509549003127"],
        Except.error ()) :=
  (c8_order_edit_aborts envW worldBeginErr "12509549003127" "777"
      "_tib_design_link_1" "https://u" (by decide)).1 rfl (by decide)

theorem filter_rotate_indep (env : ShopifyEnv) (r2 : R2Env) (world : World)
    (p : Payload) :
    (processRotateAndUpdateJob env r2 world p).filter Event.isRotate =
      if payloadValid p && shopifyOk env then
        ((fetchRotateLoop world p.image_url.jsToString
          (effectiveRotation p) 1 4).1).filter Event.isRotate
      else [] := by
  by_cases hv : payloadValid p = true
  · by_cases hs : shopifyOk env = true
    · rcases hloopo : (fetchRotateLoop world p.image_url.jsToString
        (effectiveRotation p) 1 4).2 with _ | buf
      · rw [processJob_none env r2 world p hv hs hloopo]
        simp [hv, hs, List.filter_cons, Event.isRotate]
      · rw [processJob_some env r2 world p buf hv hs hloopo]
        have htail : (jobTail env r2 world p buf).filter Event.isRotate
            = [] := by
          apply filter_nil_of_all_false
          intro e he
          rcases jobTail_mem env r2 world p buf e he with h | h | h <;>
            cases e <;> simp_all [Event.isR2Put, Event.isMetafieldsSet,
              Event.isOrderEdit, Event.isRotate]
        simp [hv, hs, List.filter_cons, List.filter_append, htail,
          Event.isRotate]
    · simp [processRotateAndUpdateJob, hv, hs]
  · simp [processRotateAndUpdateJob, hv]

/-- C9: rotating an image by 90 degrees four times reproduces the
original pixel grid (rotation composition identity), and the rotate
calls of the workflow trace do not depend on the configured storage
backend (two R2 configurations yield the same rotate events). -/
theorem c9_rotate_four_times_identity :
    (∀ (P : Type) (m n : Nat) (img : Fin m → Fin n → P),
      rotate90 (rotate90 (rotate90 (rotate90 img))) = img) ∧
    (∀ (env : ShopifyEnv) (r2a r2b : R2Env) (world : World) (p : Payload),
      (processRotateAndUpdateJob env r2a world p).filter Event.isRotate =
        (processRotateAndUpdateJob env r2b world p).filter
          Event.isRotate) := by
  constructor
  · intro P m n img
    funext i j
    simp [rotate90, Fin.rev_rev]
  · intro env r2a r2b world p
    rw [filter_rotate_indep env r2a world p, filter_rotate_indep env r2b
      world p]

theorem processJob_congr (env : ShopifyEnv) (r2 : R2Env) (world : World)
    (p q : Payload)
    (h1 : q.image_url = p.image_url) (h2 : q.product_id = p.product_id)
    (h3 : q.metafield_namespace = p.metafield_namespace)
    (h4 : q.metafield_key = p.metafield_key)
    (h5 : q.order_id = p.order_id) (h6 : q.line_item_id = p.line_item_id)
    (h7 : effectiveRotation q = effectiveRotation p) :
    processRotateAndUpdateJob env r2 world q =
      processRotateAndUpdateJob env r2 world p := by
  simp only [processRotateAndUpdateJob, payloadValid, mkFilename,
    h1, h2, h3, h4, h5, h6, h7]

/-- C10: for every Job whose rotation field is falsy (0, the empty
string, null, false, or absent), the whole workflow behaves exactly as
if the field were absent, and every rotate call of the trace uses the
default angle of 90 degrees. -/
theorem c10_falsy_rotation_defaults_to_90 (env : ShopifyEnv) (r2 : R2Env)
    (world : World) (p : Payload) (h : p.rotation.truthy = false) :
    processRotateAndUpdateJob env r2 world p =
        processRotateAndUpdateJob env r2 world
          { p with rotation := JsVal.undefined } ∧
      ∀ e ∈ processRotateAndUpdateJob env r2 world p,
        Event.isRotate e = true → e = Event.rotate (JsVal.num 90) := by
  have hrot : effectiveRotation p = JsVal.num 90 := by
    simp [effectiveRotation, h]
  have hrot2 : effectiveRotation { p with rotation := JsVal.undefined } =
      JsVal.num 90 := by
    simp [effectiveRotation, JsVal.truthy]
  constructor
  · exact (processJob_congr env r2 world p
      { p with rotation := JsVal.undefined }
      rfl rfl rfl rfl rfl rfl (hrot2.trans hrot.symm)).symm
  · intro e he hre
    by_cases hv : payloadValid p = true
    · by_cases hs : shopifyOk env = true
      · rcases hloopo : (fetchRotateLoop world p.image_url.jsToString
          (effectiveRotation p) 1 4).2 with _ | buf
        · rw [processJob_none env r2 world p hv hs hloopo] at he
          rcases List.mem_cons.mp he with hh | hh
          · subst hh; exact absurd hre (by simp [Event.isRotate])
          · rcases fetchRotateLoop_mem world _ _ 4 1 e hh with hh | hh | hh
            · subst hh; exact absurd hre (by simp [Event.isRotate])
            · subst hh; rw [hrot]
            · subst hh; exact absurd hre (by simp [Event.isRotate])
        · rw [processJob_some env r2 world p buf hv hs hloopo] at he
          rcases List.mem_cons.mp he with hh | hh
          · subst hh; exact absurd hre (by simp [Event.isRotate])
          rcases List.mem_append.mp hh with hh | hh
          · rcases fetchRotateLoop_mem world _ _ 4 1 e hh with hh | hh | hh
            · subst hh; exact absurd hre (by simp [Event.isRotate])
            · subst hh; rw [hrot]
            · subst hh; exact absurd hre (by simp [Event.isRotate])
          · exfalso
            rcases jobTail_mem env r2 world p buf e hh with hh | hh | hh <;>
              cases e <;> simp_all [Event.isR2Put, Event.isMetafieldsSet,
                Event.isOrderEdit, Event.isRotate]
      · rw [show processRotateAndUpdateJob env r2 world p = [] by
          simp [processRotateAndUpdateJob, hv, hs]] at he
        exact absurd he (by simp)
    · rw [show processRotateAndUpdateJob env r2 world p = [] by
        simp [processRotateAndUpdateJob, hv]] at he
      exact absurd he (by simp)

/-- A valid payload whose rotation field is present but 0. -/
def pRot0 : Payload := { pOK with rotation := JsVal.num 0 }

/-- Witness for C10 at a concrete payload with rotation 0. -/
theorem c10_falsy_rotation_defaults_to_90_witness :
    processRotateAndUpdateJob envW r2W worldW pRot0 =
      processRotateAndUpdateJob envW r2W worldW
        { pRot0 with rotation := JsVal.undefined } :=
  (c10_falsy_rotation_defaults_to_90 envW r2W worldW pRot0 (by decide)).1
